import Mathlib

/-- Word character in the sense of JS regex `\w` (`[A-Za-z0-9_]`). -/
def isWordChar (c : Char) : Bool :=
  ('a' ≤ c && c ≤ 'z') || ('A' ≤ c && c ≤ 'Z') || ('0' ≤ c && c ≤ '9') || c == '_'

/-- Whitespace in the sense of JS regex `\s` (ASCII part). -/
def isSpaceChar (c : Char) : Bool :=
  c == ' ' || c == '\t' || c == '\n' || c == '\r' || c == '\x0b' || c == '\x0c'

/-- Abstract syntax of the JavaScript regexes appearing in `safety.ts`. -/
inductive Reg : Type where
  | eps : Reg
  | dot : Reg
  | ch : Char → Reg
  | chi : Char → Reg
  | cls : List Char → Reg
  | ncls : List Char → Reg
  | rng : Char → Char → Reg
  | sp : Reg
  | wd : Reg
  | seq : Reg → Reg → Reg
  | alt : Reg → Reg → Reg
  | star : Reg → Reg
  | wb : Reg
  | bos : Reg
  | eos : Reg
deriving Repr, DecidableEq

/-- Size of a regex, used to compute an adequate fuel bound. -/
def Reg.size : Reg → Nat
  | .seq a b => a.size + b.size + 1
  | .alt a b => a.size + b.size + 1
  | .star r => r.size + 1
  | _ => 1

/-- Backtracking matcher: `regMatch s fuel r i k` holds when `r` matches a
slice of `s` starting at index `i` whose end index satisfies the
continuation `k`. Star iterations are forced to consume at least one
character (which does not change the matched language). The recursion is
structural on `fuel`; `regSearch` supplies a fuel bound large enough that
it is never exhausted on a successful match. -/
def regMatch (s : List Char) : Nat → Reg → Nat → (Nat → Bool) → Bool
  | 0, _, _, _ => false
  | _ + 1, Reg.eps, i, k => k i
  | _ + 1, Reg.dot, i, k =>
      match s.get? i with
      | some c => !(c == '\n' || c == '\r') && k (i+1)
      | none => false
  | _ + 1, Reg.ch c, i, k =>
      match s.get? i with
      | some c2 => c2 == c && k (i+1)
      | none => false
  | _ + 1, Reg.chi c, i, k =>
      match s.get? i with
      | some c2 => c2.toLower == c.toLower && k (i+1)
      | none => false
  | _ + 1, Reg.cls cs, i, k =>
      match s.get? i with
      | some c => cs.contains c && k (i+1)
      | none => false
  | _ + 1, Reg.ncls cs, i, k =>
      match s.get? i with
      | some c => !cs.contains c && k (i+1)
      | none => false
  | _ + 1, Reg.rng lo hi, i, k =>
      match s.get? i with
      | some c => decide (lo ≤ c) && decide (c ≤ hi) && k (i+1)
      | none => false
  | _ + 1, Reg.sp, i, k =>
      match s.get? i with
      | some c => isSpaceChar c && k (i+1)
      | none => false
  | _ + 1, Reg.wd, i, k =>
      match s.get? i with
      | some c => isWordChar c && k (i+1)
      | none => false
  | fuel + 1, Reg.seq a b, i, k => regMatch s fuel a i (fun j => regMatch s fuel b j k)
  | fuel + 1, Reg.alt a b, i, k => regMatch s fuel a i k || regMatch s fuel b i k
  | fuel + 1, Reg.star r, i, k =>
      k i || regMatch s fuel r i (fun j => decide (i < j) && regMatch s fuel (Reg.star r) j k)
  | _ + 1, Reg.wb, i, k =>
      let before := match i with
        | 0 => false
        | j + 1 => (match s.get? j with | some c => isWordChar c | none => false)
      let after := match s.get? i with
        | some c => isWordChar c
        | none => false
      (before != after) && k i
  | _ + 1, Reg.bos, i, k => (i == 0) && k i
  | _ + 1, Reg.eos, i, k => (i == s.length) && k i

/-- Unanchored search, the semantics of JS `RegExp.test`. -/
def regSearch (r : Reg) (s : String) : Bool :=
  let cs := s.data
  let fuel := (cs.length + 2) * (r.size + 2)
  (List.range (cs.length + 1)).any (fun i => regMatch cs fuel r i (fun _ => true))

/-- Literal string regex. -/
def rstr (s : String) : Reg := s.data.foldr (fun c r => Reg.seq (Reg.ch c) r) Reg.eps

/-- Case-insensitive literal string regex (for patterns with the `i` flag). -/
def rstri (s : String) : Reg := s.data.foldr (fun c r => Reg.seq (Reg.chi c) r) Reg.eps

/-- Sequence of regexes. -/
def rseq (l : List Reg) : Reg := l.foldr Reg.seq Reg.eps

/-- Alternation of a non-empty list of regexes. -/
def raltL : List Reg → Reg
  | [] => Reg.cls []
  | [r] => r
  | r :: rs => Reg.alt r (raltL rs)

/-- One-or-more (`+`). -/
def rplus (r : Reg) : Reg := Reg.seq r (Reg.star r)

/-- Zero-or-one (`?`). -/
def ropt (r : Reg) : Reg := Reg.alt r Reg.eps

/-- The regex `\s+`. -/
def rspP : Reg := rplus Reg.sp

/-- The regex `\s*`. -/
def rspS : Reg := Reg.star Reg.sp

/-- The regex `.*`. -/
def rdotS : Reg := Reg.star Reg.dot

/-!
Embedding of `src/services/claude/safety.ts`. Each JS regex from the
pattern tables is transliterated into a `Reg`; the list order matches the
source order, which matters because the source iterates each table with
early return on the first match.
-/

/-- Model of JS `String.prototype.trim`: strip whitespace from both ends.
(The built-in `String.trim` is avoided because it does not reduce inside
the kernel.) -/
def jsTrim (s : String) : String :=
  String.mk (((s.data.dropWhile isSpaceChar).reverse.dropWhile isSpaceChar).reverse)

/-- Result type of the safety checks (`SafetyCheckResult` in `safety.ts`). -/
structure SafetyCheckResult where
  allowed : Bool
  reason : Option String := none
  warning : Option String := none
deriving Repr, DecidableEq

/-- The `BLOCKED_BASH_PATTERNS` table of `safety.ts` (pattern, reason). -/
def BLOCKED_BASH_PATTERNS : List (Reg × String) := [
  (rseq [rstr "rm", rspP, Reg.star (rseq [Reg.ch '-', rplus (Reg.cls ['r', 'f']), rspP]),
     Reg.cls ['/', '~']], "Recursive delete from root or home"),
  (rseq [rstr "rm", rspP, rstr "-r", ropt (Reg.ch 'f'), rspP, Reg.ch '*'], "Delete all files"),
  (rseq [Reg.ch '>', rspS, rstr "/dev/sd", Reg.rng 'a' 'z'], "Direct disk write"),
  (rstr "mkfs.", "Filesystem format"),
  (rseq [rstr "dd", rspP, rdotS, rstr "of=/dev/"], "Direct disk write"),
  (rseq [rstri "DROP", rspP, raltL [rstri "DATABASE", rstri "TABLE", rstri "SCHEMA"]],
     "Database destruction"),
  (rseq [rstri "DELETE", rspP, rstri "FROM", rspP, rplus Reg.wd, rspS,
     Reg.alt (Reg.ch ';') Reg.eos], "Unfiltered DELETE (no WHERE clause)"),
  (rseq [rstri "TRUNCATE", rspP, rstri "TABLE"], "Table truncation"),
  (rseq [rstr "sudo", rspP], "Privilege escalation"),
  (rseq [rstr "chmod", rspP, rstr "777"], "Insecure permissions"),
  (rseq [rstr "chown", rspP, rstr "root"], "Change ownership to root"),
  (rseq [rstr "git", rspP, rstr "push", rspP, rdotS, rstr "--force"], "Force push"),
  (rseq [rstr "git", rspP, rstr "push", rspP, rstr "-f", Reg.sp], "Force push"),
  (rseq [rstr "git", rspP, rstr "reset", rspP, rstr "--hard", rspP, rstr "origin"],
     "Hard reset to remote"),
  (rseq [rstr "git", rspP, rstr "clean", rspP, rstr "-fd"], "Remove untracked files"),
  (rseq [rstr "export", rspP, Reg.star Reg.wd,
     raltL [rstr "_KEY", rstr "_SECRET", rstr "_TOKEN", rstr "_PASSWORD"], Reg.ch '='],
     "Setting secrets in shell"),
  (rseq [rstr "echo", rspP, rdotS, Reg.ch '>', rspS, rstr ".env"], "Overwriting .env file"),
  (rseq [rstr "kill", rspP, rstr "-9", rspP, Reg.ch '1', Reg.wb], "Kill init process"),
  (rstr "shutdown", "System shutdown"),
  (rstr "reboot", "System reboot"),
  (rseq [rstr "systemctl", rspP, Reg.alt (rstr "stop") (rstr "disable")],
     "Stopping system services"),
  (rseq [rstr "npm", rspP, rstr "publish"], "Publishing packages"),
  (rseq [rstr "npm", rspP, rstr "unpublish"], "Unpublishing packages"),
  (rseq [rstr "npm", rspP, rstr "deprecate"], "Deprecating packages"),
  (rseq [rstr "curl", rdotS, Reg.ch '|', rspS, ropt (rstr "ba"), rstr "sh"],
     "Piping remote script to shell"),
  (rseq [rstr "wget", rdotS, Reg.ch '|', rspS, ropt (rstr "ba"), rstr "sh"],
     "Piping remote script to shell"),
  (raltL [rstr "xmrig", rstr "minerd", rstr "cryptonight"], "Potential crypto mining")]

/-- The `WARN_BASH_PATTERNS` table of `safety.ts` (pattern, warning). -/
def WARN_BASH_PATTERNS : List (Reg × String) := [
  (rseq [rstr "curl", rspP], "Network request with curl"),
  (rseq [rstr "wget", rspP], "Network request with wget"),
  (rseq [rstr "npm", rspP, rstr "install", rspP, rstr "-g"], "Global npm install"),
  (rseq [rstr "docker", rspP], "Docker command"),
  (rseq [rstr "git", rspP, rstr "push"], "Git push operation")]

/-- The `ALLOWED_BASH_PATTERNS` table of `safety.ts`. -/
def ALLOWED_BASH_PATTERNS : List Reg := [
  rseq [Reg.bos, rstr "npm", rspP,
    raltL [rstr "run", rstr "test", rstr "start", rstr "build", rstr "ci", rstr "install"], Reg.wb],
  rseq [Reg.bos, rstr "yarn", rspP,
    raltL [rstr "test", rstr "build", rstr "start", rstr "install"], Reg.wb],
  rseq [Reg.bos, rstr "pnpm", rspP,
    raltL [rstr "test", rstr "build", rstr "start", rstr "install"], Reg.wb],
  rseq [Reg.bos, rstr "bun", rspP,
    raltL [rstr "run", rstr "test", rstr "build", rstr "install", rstr "dev", rstr "lint"], Reg.wb],
  rseq [Reg.bos, rstr "node", rspP],
  rseq [Reg.bos, rstr "npx", rspP,
    raltL [rstr "tsc", rstr "eslint", rstr "prettier", rstr "vitest", rstr "jest"], Reg.wb],
  rseq [Reg.bos, rstr "bundle", rspP, raltL [rstr "exec", rstr "install", rstr "update"], Reg.wb],
  rseq [Reg.bos, rstr "bin/cop", Reg.wb],
  rseq [Reg.bos, rstr "bin/rails", Reg.wb],
  rseq [Reg.bos, rstr "rake", rspP],
  rseq [Reg.bos, rstr "git", rspP,
    raltL [rstr "status", rstr "log", rstr "diff", rstr "branch", rstr "show"], Reg.wb],
  rseq [Reg.bos, rstr "ls", Reg.wb],
  rseq [Reg.bos, rstr "cat", Reg.wb],
  rseq [Reg.bos, rstr "head", Reg.wb],
  rseq [Reg.bos, rstr "tail", Reg.wb],
  rseq [Reg.bos, rstr "grep", Reg.wb],
  rseq [Reg.bos, rstr "find", rspP, Reg.ch '.'],
  rseq [Reg.bos, rstr "pwd", Reg.eos],
  rseq [Reg.bos, rstr "echo", Reg.sp],
  rseq [Reg.bos, rstr "mkdir", rspP, Reg.ch '-', ropt (Reg.ch 'p'), rspP, Reg.ch '.'],
  rseq [Reg.bos, rstr "cp", rspP, Reg.ncls ['/']],
  rseq [Reg.bos, rstr "mv", rspP, Reg.ncls ['/']]]

/-- The function `checkBashCommand` of `safety.ts`: allowlist first
(short-circuit allow), then blocklist (short-circuit deny with the matched
reason), then warn-list (allow with warning), else allow. -/
def checkBashCommand (command : String) : SafetyCheckResult :=
  let normalizedCommand := jsTrim command
  if ALLOWED_BASH_PATTERNS.any (fun p => regSearch p normalizedCommand) then
    { allowed := true }
  else
    match BLOCKED_BASH_PATTERNS.find? (fun pr => regSearch pr.1 normalizedCommand) with
    | some pr => { allowed := false, reason := some ("Blocked: " ++ pr.2) }
    | none =>
      match WARN_BASH_PATTERNS.find? (fun pw => regSearch pw.1 normalizedCommand) with
      | some pw => { allowed := true, warning := some pw.2 }
      | none => { allowed := true }

/-!
Model of the Node `path` (POSIX) functions used by `checkFilePath`:
`normalize`, `isAbsolute`, `join` and `resolve`. `resolve` is modelled for
absolute arguments only; `checkFilePath` applies it to `repoPath` (assumed
absolute, as in deployment) and to `absolutePath`, which is absolute by
construction whenever `repoPath` is.
-/

/-- Test whether the first list is an initial run of the second
(`String.prototype.startsWith` on character lists). -/
def listLeads : List Char → List Char → Bool
  | [], _ => true
  | _ :: _, [] => false
  | a :: as, b :: bs => a == b && listLeads as bs

/-- Model of JS `String.prototype.startsWith`. -/
def strStartsWith (s pre : String) : Bool := listLeads pre.data s.data

/-- Substring containment (`String.prototype.includes`). -/
def strContains (s pat : String) : Bool :=
  (List.range (s.data.length + 1)).any (fun i => listLeads pat.data (s.data.drop i))

/-- Split a character list at a separator character (`String.split`). -/
def splitOnChar (sep : Char) : List Char → List (List Char)
  | [] => [[]]
  | c :: cs =>
    let r := splitOnChar sep cs
    if c == sep then [] :: r
    else
      match r with
      | [] => [[c]]
      | h :: t => (c :: h) :: t

/-- Join segments with `/` separators. -/
def joinSlash : List (List Char) → List Char
  | [] => []
  | [x] => x
  | x :: xs => x ++ '/' :: joinSlash xs

/-- Processing of one path segment during normalisation: `..` pops the last
segment (or is kept leading in a relative path, or dropped at the root of
an absolute path); other segments are appended. -/
def stepSeg (isAbs : Bool) (acc : List (List Char)) (seg : List Char) : List (List Char) :=
  if seg == ['.', '.'] then
    match acc.getLast? with
    | some l => if l == ['.', '.'] then acc ++ [seg] else acc.dropLast
    | none => if isAbs then [] else [seg]
  else acc ++ [seg]

/-- Model of POSIX `path.normalize`. -/
def posixNormalize (p : String) : String :=
  let cs := p.data
  let isAbs := listLeads ['/'] cs
  let trail := listLeads ['/'] cs.reverse
  let segs := ((splitOnChar '/' cs).filter (fun s => !(s.isEmpty || s == ['.']))).foldl
    (stepSeg isAbs) []
  let core := joinSlash segs
  let body := if isAbs then '/' :: core else if core.isEmpty then ['.'] else core
  String.mk (if trail && body.getLast? != some '/' then body ++ ['/'] else body)

/-- Model of POSIX `path.isAbsolute`. -/
def posixIsAbsolute (p : String) : Bool := listLeads ['/'] p.data

/-- Model of POSIX `path.join` for two arguments. -/
def posixJoin (a b : String) : String := posixNormalize (String.mk (a.data ++ '/' :: b.data))

/-- Model of POSIX `path.resolve` on an absolute argument: normalise and
drop a trailing slash (except for the root). -/
def posixResolveAbs (p : String) : String :=
  let n := (posixNormalize p).data
  if n != ['/'] && n.getLast? == some '/' then String.mk n.dropLast else String.mk n

/-- The `PROTECTED_FILE_PATTERNS` table of `safety.ts` (pattern, reason). -/
def PROTECTED_FILE_PATTERNS : List (Reg × String) := [
  (rseq [rstr ".env", Reg.alt Reg.eos (Reg.ch '.')], "Environment file"),
  (rseq [rstr ".env.local", Reg.eos], "Local environment file"),
  (rseq [rstr ".env.production", Reg.eos], "Production environment file"),
  (rseq [rstri "credentials.", raltL [rstri "json", rstri "yaml", rstri "yml"], Reg.eos],
     "Credentials file"),
  (rseq [rstri "secret", ropt (Reg.chi 's'), Reg.chi '.',
     raltL [rstri "json", rstri "yaml", rstri "yml"], Reg.eos], "Secrets file"),
  (rseq [rstr ".pem", Reg.eos], "Private key"),
  (rseq [rstr ".key", Reg.eos], "Private key"),
  (rstr "id_rsa", "SSH private key"),
  (rseq [rstr "config/application.yml", Reg.eos], "Rails application secrets (Figaro)"),
  (rseq [rstr "config/credentials.yml.enc", Reg.eos], "Rails encrypted credentials"),
  (rseq [rstr "config/master.key", Reg.eos], "Rails master key"),
  (rseq [rstr "config/database.yml", Reg.eos], "Database configuration"),
  (rstr ".git/", "Git internal file"),
  (rseq [rstri ".github/workflows/", rdotS, rstri "secrets"], "GitHub secrets reference"),
  (rseq [rstr "package-lock.json", Reg.eos], "Package lock (auto-generated)"),
  (rseq [rstr "yarn.lock", Reg.eos], "Yarn lock (auto-generated)"),
  (rseq [rstr "pnpm-lock.yaml", Reg.eos], "PNPM lock (auto-generated)"),
  (rseq [rstr "bun.lockb", Reg.eos], "Bun lock (auto-generated)"),
  (rseq [rstr "Gemfile.lock", Reg.eos], "Gemfile lock (auto-generated)")]

/-- The `SENSITIVE_FILE_PATTERNS` table of `safety.ts` (pattern, warning). -/
def SENSITIVE_FILE_PATTERNS : List (Reg × String) := [
  (rseq [rstr "package.json", Reg.eos], "Package manifest - dependencies may change"),
  (rseq [rstr "tsconfig.json", Reg.eos], "TypeScript config"),
  (rstr ".github/workflows/", "GitHub Actions workflow"),
  (rseq [rstr "vercel.json", Reg.eos], "Vercel configuration"),
  (rseq [rstr "Dockerfile", Reg.eos], "Docker configuration"),
  (rseq [rstr "docker-compose.y", ropt (Reg.ch 'a'), rstr "ml", Reg.eos],
     "Docker Compose configuration"),
  (rseq [rstr "Gemfile", Reg.eos], "Ruby dependencies (Gemfile)"),
  (rseq [rstr "config/routes.rb", Reg.eos], "Rails routes"),
  (rstr "config/initializers/", "Rails initializer"),
  (rstr "db/migrate/", "Database migration"),
  (rseq [rstr "db/schema.rb", Reg.eos], "Database schema"),
  (rseq [rstr "next.config.", raltL [rstr "js", rstr "ts", rstr "mjs"], Reg.eos],
     "Next.js configuration"),
  (rseq [rstr "tailwind.config.", Reg.alt (rstr "js") (rstr "ts"), Reg.eos],
     "Tailwind CSS configuration")]

/-- The function `checkFilePath` of `safety.ts`: normalise, resolve against
the repo root, deny if the resolved file does not have the resolved root
as a string prefix (`startsWith` in the source), else deny on the first
protected-pattern match on the normalised path, else warn on the first
sensitive-pattern match, else allow. -/
def checkFilePath (filePath repoPath : String) : SafetyCheckResult :=
  let normalizedPath := posixNormalize filePath
  let absolutePath :=
    if posixIsAbsolute normalizedPath then normalizedPath else posixJoin repoPath normalizedPath
  let resolvedRepo := posixResolveAbs repoPath
  let resolvedFile := posixResolveAbs absolutePath
  if ¬ (strStartsWith resolvedFile resolvedRepo = true) then
    { allowed := false, reason := some "Path outside repository" }
  else
    match PROTECTED_FILE_PATTERNS.find? (fun pr => regSearch pr.1 normalizedPath) with
    | some pr => { allowed := false, reason := some ("Protected file: " ++ pr.2) }
    | none =>
      match SENSITIVE_FILE_PATTERNS.find? (fun pw => regSearch pw.1 normalizedPath) with
      | some pw => { allowed := true, warning := some pw.2 }
      | none => { allowed := true }

/-!
Specification-side definitions for the path check, used to compare
`checkFilePath` (from the source) with the specification's wording.
-/

/-- Three-valued verdict used by the specification. -/
inductive Verdict : Type where
  | denied : Verdict
  | allowedWithWarning : Verdict
  | allowedClean : Verdict
deriving Repr, DecidableEq

/-- Verdict category of a `SafetyCheckResult`. -/
def verdictOf (r : SafetyCheckResult) : Verdict :=
  if r.allowed = false then Verdict.denied
  else if r.warning.isSome then Verdict.allowedWithWarning
  else Verdict.allowedClean

/-- Genuine path containment, the plain reading of the specification's
"the resolved path lies within repoRoot": the file is the root itself or
is below it as a path component. -/
def liesWithin (file root : String) : Bool :=
  file == root || strStartsWith file (root ++ "/")

/-- The resolved path of `checkFilePath` (relative paths resolved against
the repo root), as computed by the source. -/
def resolvedFileOf (filePath repoPath : String) : String :=
  let n := posixNormalize filePath
  posixResolveAbs (if posixIsAbsolute n then n else posixJoin repoPath n)

/-- Specification-side verdict following the claim's words, with the
traversal guard read as genuine path containment. -/
def specCheckPathContain (p r : String) : Verdict :=
  if liesWithin (resolvedFileOf p r) (posixResolveAbs r) = false then Verdict.denied
  else if PROTECTED_FILE_PATTERNS.any (fun pr => regSearch pr.1 (posixNormalize p)) then
    Verdict.denied
  else if SENSITIVE_FILE_PATTERNS.any (fun pw => regSearch pw.1 (posixNormalize p)) then
    Verdict.allowedWithWarning
  else Verdict.allowedClean

/-- Specification-side verdict with the traversal guard amended to the
string-prefix test that the source actually performs. -/
def specCheckPathPrefix (p r : String) : Verdict :=
  if strStartsWith (resolvedFileOf p r) (posixResolveAbs r) = false then Verdict.denied
  else if PROTECTED_FILE_PATTERNS.any (fun pr => regSearch pr.1 (posixNormalize p)) then
    Verdict.denied
  else if SENSITIVE_FILE_PATTERNS.any (fun pw => regSearch pw.1 (posixNormalize p)) then
    Verdict.allowedWithWarning
  else Verdict.allowedClean

/-!
Embedding of `src/utils/thread-tracking.ts`: the two tracking sets, the
context map and the operations `markThreadCompleted`, `clearActiveThread`,
`getThreadContext`, together with `processedMessages` maintained by the
Slack event endpoint.
-/

/-- The `ThreadContext` interface of `src/types/index.ts`. -/
structure ThreadContext where
  branchName : String
  prUrl : Option String := none
  prNumber : Option Nat := none
  originalIssueText : String
  filesChanged : List String
deriving Repr, DecidableEq

/-- The module-level mutable state of `thread-tracking.ts` (plus
`processedMessages`, maintained by the event endpoint). -/
structure TrackState where
  processedMessages : Finset String
  activeThreads : Finset String
  completedThreads : Finset String
  threadContextMap : String → Option ThreadContext

/-- Initial state: all sets empty, no stored contexts. -/
def initialTrackState : TrackState :=
  { processedMessages := ∅, activeThreads := ∅, completedThreads := ∅,
    threadContextMap := fun _ => none }

/-- The function `markThreadCompleted` of `thread-tracking.ts`: delete the
key from `activeThreads`, add it to `completedThreads`, and if a context
is supplied store it with `Map.set` (which replaces any previous entry). -/
def markThreadCompleted (threadTs : String) (context : Option ThreadContext)
    (st : TrackState) : TrackState :=
  { st with
    activeThreads := st.activeThreads.erase threadTs,
    completedThreads := insert threadTs st.completedThreads,
    threadContextMap :=
      match context with
      | some ctx => fun k => if k = threadTs then some ctx else st.threadContextMap k
      | none => st.threadContextMap }

/-- The function `clearActiveThread` of `thread-tracking.ts`. -/
def clearActiveThread (threadTs : String) (st : TrackState) : TrackState :=
  { st with activeThreads := st.activeThreads.erase threadTs }

/-- The function `getThreadContext` of `thread-tracking.ts`. -/
def getThreadContext (threadTs : String) (st : TrackState) : Option ThreadContext :=
  st.threadContextMap threadTs

/-!
Embedding of the Slack event endpoint (`app.post('/api/slack-events')`).
The model starts after signature verification, URL-verification challenge
and schema validation, and covers the admission guards and job
construction. Fields not consulted by any guard (images, PR references,
timestamps) are omitted from the job record.
-/

/-- The fields of a validated inbound Slack message event consulted by the
admission guards. -/
structure SlackEvent where
  eventType : String
  subtype : Option String
  botId : Option String
  user : Option String
  ts : String
  threadTs : Option String
  channel : String
  text : String
deriving Repr, DecidableEq

/-- The `IssueJob` record (fields relevant to admission, queueing and the
pipeline). -/
structure IssueJob where
  id : String
  text : String
  channel : String
  threadTs : String
  userId : String
  retryCount : Nat
  isFollowUp : Bool
  threadContext : Option ThreadContext := none
deriving Repr, DecidableEq

/-- Outcome of the event endpoint for one inbound event: either the event
is dropped (handler returns without queueing) or a job is enqueued. -/
inductive Decision : Type where
  | dropped : Decision
  | enqueued : IssueJob → Decision
deriving Repr, DecidableEq

/-- The source's `isThreadReply`: a `thread_ts` is present and differs from
the message's own `ts`. -/
def isThreadReply (ev : SlackEvent) : Bool :=
  match ev.threadTs with
  | some t => if t = ev.ts then false else true
  | none => false

/-- The source's `threadKey` (`thread_ts || ts`). -/
def threadKeyOf (ev : SlackEvent) : String := ev.threadTs.getD ev.ts

/-- The job built by the endpoint when an event is admitted. -/
def mkIssueJob (ev : SlackEvent) (st : TrackState) : IssueJob :=
  { id := ev.ts,
    text := jsTrim ev.text,
    channel := ev.channel,
    threadTs := threadKeyOf ev,
    userId := ev.user.getD "",
    retryCount := 0,
    isFollowUp := isThreadReply ev,
    threadContext := if isThreadReply ev then st.threadContextMap (threadKeyOf ev) else none }

/-- The admission logic of `app.post('/api/slack-events')`, in source
order: event-type, subtype, bot, user, duplicate-message, thread-reply
and active-thread guards, channel check, minimum length, top-level
`@mention` rejection; an admitted event enqueues a job, records the
message id and claims the thread as active. -/
def handleSlackEvent (channelId : String) (ev : SlackEvent) (st : TrackState) :
    Decision × TrackState :=
  if ev.eventType ≠ "message" then (Decision.dropped, st)
  else if (match ev.subtype with | some s => s != "file_share" | none => false) then
    (Decision.dropped, st)
  else if ev.botId.isSome then (Decision.dropped, st)
  else if (match ev.user with | none => true | some u => u == "USLACKBOT") then
    (Decision.dropped, st)
  else if ev.ts ∈ st.processedMessages then (Decision.dropped, st)
  else if isThreadReply ev ∧ threadKeyOf ev ∈ st.activeThreads then (Decision.dropped, st)
  else if isThreadReply ev ∧ threadKeyOf ev ∉ st.completedThreads then (Decision.dropped, st)
  else if ¬ isThreadReply ev ∧ threadKeyOf ev ∈ st.activeThreads then (Decision.dropped, st)
  else if ev.channel ≠ channelId then (Decision.dropped, st)
  else if (jsTrim ev.text).length < 10 then (Decision.dropped, st)
  else if ¬ isThreadReply ev ∧ strContains (jsTrim ev.text) "<@U" then (Decision.dropped, st)
  else
    let job := mkIssueJob ev st
    (Decision.enqueued job,
     { st with
       processedMessages := insert ev.ts st.processedMessages,
       activeThreads := insert job.threadTs st.activeThreads })

/-!
Embedding of `src/utils/queue.ts` (`AsyncJobQueue`). The queue processes
one job at a time (`maxConcurrent = 1`); `runQueue` returns the sequence of
handler invocations (each entry is the job as attempted, carrying the
retry counter it had at that attempt), mirroring the `while` loop of
`AsyncJobQueue.process`: head is dequeued, the handler is invoked, and on
a non-`completed` result the job is re-appended to the tail with an
incremented counter while `retryCount < maxRetries`, otherwise dropped.
-/

/-- Job status values of `JobStatus` in `src/types/index.ts`. -/
inductive JStatus : Type where
  | pending : JStatus
  | processing : JStatus
  | completed : JStatus
  | failed : JStatus
deriving Repr, DecidableEq

/-- The `JobResult` record (fields relevant to the claims; `resultFiles`
models `result.filesChanged` of the nested `FixResult`). -/
structure JobResult where
  jobId : String
  status : JStatus
  branchName : Option String := none
  prUrl : Option String := none
  error : Option String := none
  resultFiles : Option (List String) := none
deriving Repr, DecidableEq

/-- The fixed retry bound of `AsyncJobQueue` (`maxRetries = 2`). -/
def maxRetries : Nat := 2

/-- Termination measure for the queue loop: a job with retry counter `rc`
can be attempted at most `3 - min rc 3` more times; the padding `+ 1`
makes every dequeue strictly decrease the measure. -/
def queueMeasure (q : List IssueJob) : Nat :=
  (q.map (fun j => 4 - min j.retryCount 3)).sum

/-- The processing loop of `AsyncJobQueue.process`, returning the list of
handler invocations in order. -/
def runQueue (h : IssueJob → JobResult) : List IssueJob → List IssueJob
  | [] => []
  | j :: rest =>
    if (h j).status = JStatus.completed then j :: runQueue h rest
    else if j.retryCount < maxRetries then
      j :: runQueue h (rest ++ [{ j with retryCount := j.retryCount + 1 }])
    else j :: runQueue h rest
termination_by q => queueMeasure q
decreasing_by
  all_goals simp only [queueMeasure, maxRetries, List.map_cons, List.sum_cons, List.map_append,
    List.sum_append, List.map_nil, List.sum_nil] at *
  all_goals omega

/-!
Embedding of `processIssue` (`src/handlers/issue-processor.ts`). The
pipeline is parameterised by a `PipelineEnv` record carrying the outcomes
of its collaborator calls (Claude CLI check, agent run, `git status`,
branch checkout/creation, commit, push, PR creation). Slack notification
calls do not affect control flow or state and are not modelled; the two
deployment outcomes of STEP 9/10 are modelled identically because both
return status `completed`, store the same thread context and perform the
same collaborator calls. Success options (`branchResult`, `prResult`)
model the source's `success && value` checks, with non-empty values
assumed as produced by the real collaborators. Exceptions are outside the
model (every collaborator reports failure through its result value).
-/

/-- Outcomes of the collaborator calls made by `processIssue`. -/
structure PipelineEnv where
  useCliMode : Bool
  cliInstalled : Bool
  checkoutSuccess : Bool
  agentSuccess : Bool
  agentError : Option String := none
  gitModified : List String
  gitCreated : List String
  gitNotAdded : List String
  branchResult : Option String := none
  branchError : Option String := none
  commitSuccess : Bool
  commitError : Option String := none
  pushSuccess : Bool
  prResult : Option (String × Option Nat) := none
  prError : Option String := none
deriving Repr, DecidableEq

/-- The state-changing collaborator calls of the pipeline, recorded in
invocation order. -/
inductive CollabCall : Type where
  | checkoutExistingBranch : CollabCall
  | createBranch : CollabCall
  | commitChanges : CollabCall
  | pushBranch : CollabCall
  | createPullRequest : CollabCall
deriving Repr, DecidableEq

/-- Keep-first duplicate removal, the semantics of the source's
`[...new Set([...a, ...b])]`. -/
def dedupFrom (seen : List String) : List String → List String
  | [] => []
  | x :: xs => if x ∈ seen then dedupFrom seen xs else x :: dedupFrom (x :: seen) xs

/-- Duplicate removal keeping first occurrences. -/
def dedupKeepFirst (l : List String) : List String := dedupFrom [] l

/-- The function `processIssue`, returning the `JobResult`, the updated
thread-tracking state and the list of state-changing collaborator calls. -/
def processIssue (job : IssueJob) (env : PipelineEnv) (st : TrackState) :
    JobResult × TrackState × List CollabCall :=
  -- Follow-up with context: reuse the existing branch / PR.
  let branchName0 : Option String :=
    match job.isFollowUp, job.threadContext with
    | true, some c => some c.branchName
    | _, _ => none
  let prUrl0 : Option String :=
    match job.isFollowUp, job.threadContext with
    | true, some c => c.prUrl
    | _, _ => none
  let prNumber0 : Option Nat :=
    match job.isFollowUp, job.threadContext with
    | true, some c => c.prNumber
    | _, _ => none
  -- STEP 2: for follow-ups, check out the existing branch; on failure the
  -- branch name is cleared so a fresh branch is created later.
  let checkoutStep : Option String × List CollabCall :=
    match branchName0 with
    | some b =>
      if env.checkoutSuccess then (some b, [CollabCall.checkoutExistingBranch])
      else (none, [CollabCall.checkoutExistingBranch])
    | none => (none, [])
  let branchName1 := checkoutStep.1
  let calls1 := checkoutStep.2
  -- STEP 3: CLI availability check (CLI mode only).
  if env.useCliMode ∧ ¬ env.cliInstalled then
    ({ jobId := job.id, status := JStatus.failed, error := some "Claude CLI not installed" },
     clearActiveThread job.threadTs st, calls1)
  else
  -- STEP 4: agent outcome.
  if ¬ env.agentSuccess then
    ({ jobId := job.id, status := JStatus.failed, error := env.agentError },
     clearActiveThread job.threadTs st, calls1)
  else
  let filesChanged := env.gitModified ++ env.gitCreated ++ env.gitNotAdded
  -- No-op: agent succeeded but the working tree shows no changes.
  if filesChanged = [] then
    ({ jobId := job.id, status := JStatus.completed, resultFiles := some [] },
     markThreadCompleted job.threadTs none st, calls1)
  else
  -- STEP 5: create a branch unless a follow-up branch was checked out.
  let branchStep : Option (String × List CollabCall) :=
    match branchName1 with
    | some b => some (b, calls1)
    | none =>
      match env.branchResult with
      | some newBranch => some (newBranch, calls1 ++ [CollabCall.createBranch])
      | none => none
  match branchStep with
  | none =>
    ({ jobId := job.id, status := JStatus.failed, error := env.branchError },
     clearActiveThread job.threadTs st, calls1 ++ [CollabCall.createBranch])
  | some (branch, calls2) =>
    -- STEP 6: commit.
    if ¬ env.commitSuccess then
      ({ jobId := job.id, status := JStatus.failed, error := env.commitError },
       clearActiveThread job.threadTs st, calls2 ++ [CollabCall.commitChanges])
    else
    -- STEP 7: push.
    if ¬ env.pushSuccess then
      ({ jobId := job.id, status := JStatus.failed, error := some "Failed to push to remote" },
       clearActiveThread job.threadTs st,
       calls2 ++ [CollabCall.commitChanges, CollabCall.pushBranch])
    else
    -- STEP 8: create the PR unless the follow-up carried both a PR URL and
    -- a PR number.
    let prStep : Option (String × Option Nat) × List CollabCall :=
      match prUrl0, prNumber0 with
      | some u, some n => (some (u, some n), [])
      | _, _ =>
        match env.prResult with
        | some r => (some r, [CollabCall.createPullRequest])
        | none => (none, [CollabCall.createPullRequest])
    match prStep with
    | (none, prCalls) =>
      -- PR creation failed: report `completed` with the error and the
      -- pushed branch; the thread-tracking state is left untouched.
      ({ jobId := job.id, status := JStatus.completed, branchName := some branch,
         error := env.prError },
       st, calls2 ++ [CollabCall.commitChanges, CollabCall.pushBranch] ++ prCalls)
    | (some (finalPrUrl, finalPrNumber), prCalls) =>
      -- STEP 9/10: store the thread context (union of previously changed
      -- files with this run's files) and report success.
      let allFilesChanged :=
        match job.threadContext with
        | some c => dedupKeepFirst (c.filesChanged ++ filesChanged)
        | none => filesChanged
      let newCtx : ThreadContext :=
        { branchName := branch,
          prUrl := some finalPrUrl,
          prNumber := finalPrNumber,
          originalIssueText :=
            match job.threadContext with
            | some c => if c.originalIssueText = "" then job.text else c.originalIssueText
            | none => job.text,
          filesChanged := allFilesChanged }
      ({ jobId := job.id, status := JStatus.completed, branchName := some branch,
         prUrl := some finalPrUrl },
       markThreadCompleted job.threadTs (some newCtx) st,
       calls2 ++ [CollabCall.commitChanges, CollabCall.pushBranch] ++ prCalls)

/-!
Concrete fixtures (events, jobs, environments, tracking states) used by
the counterexamples and witnesses below, together with the reachability
relations over the thread-tracking state used by the C2 analysis:
`ReachableTrack` closes the initial state under arbitrary inbound-event
admissions, `markThreadCompleted` and `clearActiveThread` calls, exactly
as the claim quantifies; `ReachableTopLevel` restricts admissions to
top-level messages and the tracking calls to active threads (as the job
pipeline performs them).
-/

/-- States reachable by inbound-event admissions, `markThreadCompleted`
and `clearActiveThread` calls. -/
inductive ReachableTrack (cid : String) : TrackState → Prop where
  | init : ReachableTrack cid initialTrackState
  | ingest (ev : SlackEvent) {s : TrackState} :
      ReachableTrack cid s → ReachableTrack cid (handleSlackEvent cid ev s).2
  | complete (k : String) (ctx : Option ThreadContext) {s : TrackState} :
      ReachableTrack cid s → ReachableTrack cid (markThreadCompleted k ctx s)
  | clear (k : String) {s : TrackState} :
      ReachableTrack cid s → ReachableTrack cid (clearActiveThread k s)

/-- States reachable when only top-level messages are admitted and
`markThreadCompleted` / `clearActiveThread` are called on active threads
(as the job pipeline does). -/
inductive ReachableTopLevel (cid : String) : TrackState → Prop where
  | init : ReachableTopLevel cid initialTrackState
  | ingest (ev : SlackEvent) (h : isThreadReply ev = false) {s : TrackState} :
      ReachableTopLevel cid s → ReachableTopLevel cid (handleSlackEvent cid ev s).2
  | complete (k : String) (ctx : Option ThreadContext) {s : TrackState}
      (h : k ∈ s.activeThreads) :
      ReachableTopLevel cid s → ReachableTopLevel cid (markThreadCompleted k ctx s)
  | clear (k : String) {s : TrackState} (h : k ∈ s.activeThreads) :
      ReachableTopLevel cid s → ReachableTopLevel cid (clearActiveThread k s)

/-- Invariant maintained by the restricted system: the two sets are
disjoint, and both are contained in the processed-message set. -/
def TrackInv (s : TrackState) : Prop :=
  (∀ k, ¬(k ∈ s.activeThreads ∧ k ∈ s.completedThreads)) ∧
  (∀ k, k ∈ s.activeThreads → k ∈ s.processedMessages) ∧
  (∀ k, k ∈ s.completedThreads → k ∈ s.processedMessages)

/-- Job for the C1 counterexample: a fresh top-level request. -/
def c1Job : IssueJob :=
  { id := "400.1", text := "fix the about page typo", channel := "C1", threadTs := "400.1",
    userId := "U1", retryCount := 0, isFollowUp := false }

/-- Environment for the C1 counterexample: everything succeeds except PR
creation. -/
def c1Env : PipelineEnv :=
  { useCliMode := false, cliInstalled := false, checkoutSuccess := true,
    agentSuccess := true, gitModified := ["a.ts"], gitCreated := [], gitNotAdded := [],
    branchResult := some "fix/about-page", commitSuccess := true, pushSuccess := true,
    prResult := none, prError := some "GitHub API error" }

/-- Thread-tracking state in which the C1 job's thread is active. -/
def c1State : TrackState :=
  { processedMessages := {"400.1"}, activeThreads := {"400.1"}, completedThreads := ∅,
    threadContextMap := fun _ => none }

/-- Top-level bug report admitted first in the C2 counterexample trace. -/
def c2Event1 : SlackEvent :=
  { eventType := "message", subtype := none, botId := none, user := some "U1",
    ts := "100.1", threadTs := none, channel := "C1", text := "please fix the login bug" }

/-- Follow-up reply admitted after completion in the C2 counterexample. -/
def c2Event2 : SlackEvent :=
  { eventType := "message", subtype := none, botId := none, user := some "U2",
    ts := "100.2", threadTs := some "100.1", channel := "C1",
    text := "also fix the logout flow" }

/-- State reached by admitting a report, completing it, and admitting a
follow-up reply in the same thread. -/
def c2State : TrackState :=
  (handleSlackEvent "C1" c2Event2
    (markThreadCompleted "100.1" none
      (handleSlackEvent "C1" c2Event1 initialTrackState).2)).2

/-- Always-failing handler used in the C5 witness. -/
def c5FailHandler : IssueJob → JobResult := fun x => { jobId := x.id, status := JStatus.failed }

/-- Fresh job used in the C5 witness. -/
def c5Job : IssueJob :=
  { id := "300.1", text := "fix the cart total", channel := "C1", threadTs := "300.1",
    userId := "U1", retryCount := 0, isFollowUp := false }

/-- Top-level inbound event for an active thread, used in the C6 witness. -/
def c6Event : SlackEvent :=
  { eventType := "message", subtype := none, botId := none, user := some "U1",
    ts := "200.1", threadTs := none, channel := "C1", text := "please fix the search bar" }

/-- State in which thread `200.1` is active, used in the C6 witness. -/
def c6State : TrackState :=
  { processedMessages := ∅, activeThreads := {"200.1"}, completedThreads := ∅,
    threadContextMap := fun _ => none }

/-- Stored context before the C7 counterexample call. -/
def c7OldCtx : ThreadContext :=
  { branchName := "fix/a", originalIssueText := "orig", filesChanged := ["a"] }

/-- Context passed to `markThreadCompleted` in the C7 counterexample. -/
def c7NewCtx : ThreadContext :=
  { branchName := "fix/a", originalIssueText := "orig", filesChanged := ["b"] }

/-- State holding a previously stored context for thread `t1`. -/
def c7State : TrackState :=
  { processedMessages := ∅, activeThreads := ∅, completedThreads := ∅,
    threadContextMap := fun k => if k = "t1" then some c7OldCtx else none }

/-- Thread context carried by the follow-up job in the C8 witness. -/
def c8Ctx : ThreadContext :=
  { branchName := "fix/x", prUrl := some "https://github.com/o/r/pull/7", prNumber := some 7,
    originalIssueText := "fix the banner", filesChanged := ["a.ts"] }

/-- Follow-up job for the C8 witness. -/
def c8Job : IssueJob :=
  { id := "600.2", text := "tighten the banner copy", channel := "C1", threadTs := "600.1",
    userId := "U2", retryCount := 0, isFollowUp := true, threadContext := some c8Ctx }

/-- Environment for the C8 witness: checkout and the whole pipeline
succeed, with one newly modified file. -/
def c8Env : PipelineEnv :=
  { useCliMode := false, cliInstalled := false, checkoutSuccess := true,
    agentSuccess := true, gitModified := ["b.ts"], gitCreated := [], gitNotAdded := [],
    commitSuccess := true, pushSuccess := true }

/-- Job for the C9 witness. -/
def c9Job : IssueJob :=
  { id := "500.1", text := "is the cache stale", channel := "C1", threadTs := "500.1",
    userId := "U1", retryCount := 0, isFollowUp := false }

/-- Environment for the C9 witness: agent succeeds, clean working tree. -/
def c9Env : PipelineEnv :=
  { useCliMode := false, cliInstalled := false, checkoutSuccess := true,
    agentSuccess := true, gitModified := [], gitCreated := [], gitNotAdded := [],
    commitSuccess := true, pushSuccess := true }

/-!
Theorems. Generic helper lemmas come first; every claim-level theorem
names its claim identifier in its doc comment.
-/

/-- A `find?` miss is the same as an `any` failure. -/
theorem find?_none_iff_any_false {α} (f : α → Bool) (l : List α) :
    l.find? f = none ↔ l.any f = false := by
  induction l with
  | nil => simp
  | cons x xs ih =>
    by_cases hx : f x
    · simp [List.find?, List.any, hx]
    · simp [List.find?, List.any, hx, ih]

/-- A `find?` hit witnesses an `any` success. -/
theorem any_of_find?_some {α} {f : α → Bool} {l : List α} {x : α}
    (h : l.find? f = some x) : l.any f = true :=
  List.any_eq_true.mpr ⟨x, List.mem_of_find?_eq_some h, List.find?_some h⟩

/-- Claim C4: `checkBashCommand` evaluates the allowlist first
(short-circuit allow), then the denylist (short-circuit deny with the
matched reason), then the warn-list (allow with warning), then defaults to
allow; in particular `rm -rf /` is denied, `npm run build` is allowed,
`git push --force origin main` is denied, and `foobar --flag` is allowed
(fail-open default). -/
theorem c4_checkBashCommand_order :
    (∀ c : String,
      ALLOWED_BASH_PATTERNS.any (fun p => regSearch p (jsTrim c)) = true →
      checkBashCommand c = { allowed := true }) ∧
    (∀ (c : String) (pr : Reg × String),
      ALLOWED_BASH_PATTERNS.any (fun p => regSearch p (jsTrim c)) = false →
      BLOCKED_BASH_PATTERNS.find? (fun b => regSearch b.1 (jsTrim c)) = some pr →
      checkBashCommand c = { allowed := false, reason := some ("Blocked: " ++ pr.2) }) ∧
    (∀ (c : String) (pw : Reg × String),
      ALLOWED_BASH_PATTERNS.any (fun p => regSearch p (jsTrim c)) = false →
      BLOCKED_BASH_PATTERNS.find? (fun b => regSearch b.1 (jsTrim c)) = none →
      WARN_BASH_PATTERNS.find? (fun w => regSearch w.1 (jsTrim c)) = some pw →
      checkBashCommand c = { allowed := true, warning := some pw.2 }) ∧
    (∀ c : String,
      ALLOWED_BASH_PATTERNS.any (fun p => regSearch p (jsTrim c)) = false →
      BLOCKED_BASH_PATTERNS.find? (fun b => regSearch b.1 (jsTrim c)) = none →
      WARN_BASH_PATTERNS.find? (fun w => regSearch w.1 (jsTrim c)) = none →
      checkBashCommand c = { allowed := true }) ∧
    checkBashCommand "rm -rf /"
      = { allowed := false, reason := some "Blocked: Recursive delete from root or home" } ∧
    checkBashCommand "npm run build" = { allowed := true } ∧
    checkBashCommand "git push --force origin main"
      = { allowed := false, reason := some "Blocked: Force push" } ∧
    checkBashCommand "foobar --flag" = { allowed := true } := by
  refine ⟨?_, ?_, ?_, ?_, by decide, by decide, by decide, by decide⟩
  · intro c hallow
    simp [checkBashCommand, hallow]
  · intro c pr hallow hfind
    simp [checkBashCommand, hallow, hfind]
  · intro c pw hallow hblock hwarn
    simp [checkBashCommand, hallow, hblock, hwarn]
  · intro c hallow hblock hwarn
    simp [checkBashCommand, hallow, hblock, hwarn]

/-- Witness for C4: the ordering facts applied at concrete commands. -/
theorem c4_checkBashCommand_order_witness :
    checkBashCommand "ls -la" = { allowed := true } ∧
    checkBashCommand "shutdown now"
      = { allowed := false, reason := some ("Blocked: " ++ "System shutdown") } :=
  ⟨c4_checkBashCommand_order.1 "ls -la" (by decide),
   c4_checkBashCommand_order.2.1 "shutdown now" (rstr "shutdown", "System shutdown")
     (by decide) (by decide)⟩

/-- Claim C10: the command `npm run build && rm -rf /` matches both an
allowlist prefix pattern and a denylist destructive pattern, yet
`checkBashCommand` allows it with no warning: once the allowlist matches,
the denylist is never consulted. -/
theorem c10_allowlist_shadows_denylist :
    ALLOWED_BASH_PATTERNS.any (fun p => regSearch p "npm run build && rm -rf /") = true ∧
    BLOCKED_BASH_PATTERNS.any (fun b => regSearch b.1 "npm run build && rm -rf /") = true ∧
    checkBashCommand "npm run build && rm -rf /" = { allowed := true } := by
  refine ⟨by decide, by decide, by decide⟩

/-- Claim C3, counterexample: the claim says `checkFilePath` denies
whenever the resolved path does not lie within the repository root, but
the source only checks `startsWith` on the resolved strings, so a sibling
directory whose name extends the root's name slips through:
`/repo2/file.txt` does not lie within `/repo`, yet it is allowed. -/
theorem c3_lies_within_counterexample :
    liesWithin (resolvedFileOf "/repo2/file.txt" "/repo") (posixResolveAbs "/repo") = false ∧
    specCheckPathContain "/repo2/file.txt" "/repo" = Verdict.denied ∧
    checkFilePath "/repo2/file.txt" "/repo" = { allowed := true } ∧
    verdictOf (checkFilePath "/repo2/file.txt" "/repo") = Verdict.allowedClean := by
  refine ⟨by decide, by decide, by decide, by decide⟩

/-- Claim C3, amended: `checkFilePath(p, r)` denies when the resolved path
(relative paths resolved against `r`) does not extend the resolved root as
a string prefix (the source's `startsWith` traversal guard, weaker than
genuine containment); otherwise it denies when the normalised path matches
the protected-file table; otherwise it allows with a warning when it
matches the sensitive-file table; otherwise it allows. The claim's three
examples hold as stated. -/
theorem c3_checkFilePath_amended :
    (∀ p r : String, verdictOf (checkFilePath p r) = specCheckPathPrefix p r) ∧
    checkFilePath "../../etc/passwd" "/repo"
      = { allowed := false, reason := some "Path outside repository" } ∧
    checkFilePath ".env.production" "/repo"
      = { allowed := false, reason := some "Protected file: Environment file" } ∧
    checkFilePath "package.json" "/repo"
      = { allowed := true, warning := some "Package manifest - dependencies may change" } := by
  refine ⟨?_, by decide, by decide, by decide⟩
  intro p r
  simp only [checkFilePath, specCheckPathPrefix, resolvedFileOf]
  by_cases hpre :
      strStartsWith
        (posixResolveAbs
          (if posixIsAbsolute (posixNormalize p) = true then posixNormalize p
           else posixJoin r (posixNormalize p)))
        (posixResolveAbs r) = true
  · cases hprot : PROTECTED_FILE_PATTERNS.find? (fun pr => regSearch pr.1 (posixNormalize p)) with
    | some pr => simp [hpre, hprot, any_of_find?_some hprot, verdictOf]
    | none =>
      have hb := (find?_none_iff_any_false _ _).mp hprot
      cases hsens :
          SENSITIVE_FILE_PATTERNS.find? (fun pw => regSearch pw.1 (posixNormalize p)) with
      | some pw => simp [hpre, hprot, hb, hsens, any_of_find?_some hsens, verdictOf]
      | none =>
        have hw := (find?_none_iff_any_false _ _).mp hsens
        simp [hpre, hprot, hb, hsens, hw, verdictOf]
  · simp [hpre, verdictOf]

/-- Claim C7, counterexample: `markThreadCompleted` does not merge
`filesChanged` with the previously stored context — it overwrites via
`Map.set`. Storing a context with `filesChanged = ["b"]` over a stored
`["a"]` yields `["b"]`, not the union, and the stored file set shrinks
(`"a"` disappears). -/
theorem c7_overwrite_counterexample :
    (c7State.threadContextMap "t1").map ThreadContext.filesChanged = some ["a"] ∧
    ((markThreadCompleted "t1" (some c7NewCtx) c7State).threadContextMap "t1").map
      ThreadContext.filesChanged = some ["b"] ∧
    "a" ∈ c7OldCtx.filesChanged ∧ "a" ∉ c7NewCtx.filesChanged := by
  refine ⟨by decide, ?_, by decide, by decide⟩
  simp [markThreadCompleted, c7State, c7NewCtx]

/-- Claim C7, amended: `markThreadCompleted(threadKey, context)` removes
the key from the active set, adds it to the completed set, and stores the
given context exactly as passed, overwriting any previously stored
context; the `filesChanged` union-merge is performed by the caller
(`processIssue`) before the call, so a direct call with a smaller context
shrinks the stored set. -/
theorem c7_markThreadCompleted_amended :
    ∀ (k : String) (c : ThreadContext) (st : TrackState),
      k ∉ (markThreadCompleted k (some c) st).activeThreads ∧
      k ∈ (markThreadCompleted k (some c) st).completedThreads ∧
      (markThreadCompleted k (some c) st).threadContextMap k = some c := by
  intro k c st
  refine ⟨?_, ?_, ?_⟩
  · simp [markThreadCompleted]
  · simp [markThreadCompleted]
  · simp [markThreadCompleted]

/-- Case analysis of the event endpoint: every inbound event is either
dropped with the state unchanged, or admitted, in which case the message
was not a duplicate, the thread key was not active, a reply's thread key
was in the completed set, the built job is enqueued, and the state gains
the message id and the active claim. -/
theorem handleSlackEvent_cases (cid : String) (ev : SlackEvent) (st : TrackState) :
    handleSlackEvent cid ev st = (Decision.dropped, st) ∨
    (ev.ts ∉ st.processedMessages ∧
     threadKeyOf ev ∉ st.activeThreads ∧
     (isThreadReply ev = true → threadKeyOf ev ∈ st.completedThreads) ∧
     handleSlackEvent cid ev st =
       (Decision.enqueued (mkIssueJob ev st),
        { st with
          processedMessages := insert ev.ts st.processedMessages,
          activeThreads := insert (threadKeyOf ev) st.activeThreads })) := by
  by_cases h1 : ev.eventType ≠ "message"
  · exact Or.inl (by simp [handleSlackEvent, h1])
  by_cases h2 : (match ev.subtype with | some s => s != "file_share" | none => false) = true
  · exact Or.inl (by simp [handleSlackEvent, h1, h2])
  by_cases h3 : ev.botId.isSome = true
  · exact Or.inl (by simp [handleSlackEvent, h1, h2, h3])
  by_cases h4 : (match ev.user with | none => true | some u => u == "USLACKBOT") = true
  · exact Or.inl (by simp [handleSlackEvent, h1, h2, h3, h4])
  by_cases h5 : ev.ts ∈ st.processedMessages
  · exact Or.inl (by simp [handleSlackEvent, h1, h2, h3, h4, h5])
  by_cases h6 : isThreadReply ev = true ∧ threadKeyOf ev ∈ st.activeThreads
  · exact Or.inl (by simp [handleSlackEvent, h1, h2, h3, h4, h5, h6])
  by_cases h7 : isThreadReply ev = true ∧ threadKeyOf ev ∉ st.completedThreads
  · exact Or.inl (by simp [handleSlackEvent, h1, h2, h3, h4, h5, h6, h7])
  by_cases h8 : ¬ isThreadReply ev = true ∧ threadKeyOf ev ∈ st.activeThreads
  · exact Or.inl (by simp [handleSlackEvent, h1, h2, h3, h4, h5, h6, h7, h8])
  by_cases h9 : ev.channel ≠ cid
  · exact Or.inl (by simp [handleSlackEvent, h1, h2, h3, h4, h5, h6, h7, h8, h9])
  by_cases h10 : (jsTrim ev.text).length < 10
  · exact Or.inl (by simp [handleSlackEvent, h1, h2, h3, h4, h5, h6, h7, h8, h9, h10])
  by_cases h11 : ¬ isThreadReply ev = true ∧ strContains (jsTrim ev.text) "<@U" = true
  · exact Or.inl (by simp [handleSlackEvent, h1, h2, h3, h4, h5, h6, h7, h8, h9, h10, h11])
  refine Or.inr ⟨h5, ?_, ?_, ?_⟩
  · by_cases hr : isThreadReply ev = true <;> tauto
  · intro hr
    tauto
  · simp only [Bool.not_eq_true] at h8 h11
    simp [handleSlackEvent, h1, h2, h3, h4, h5, h6, h7, h8, h9, h10, h11, mkIssueJob]

/-- Claim C6: an inbound event whose thread key is already in the active
set is dropped (no job enqueued, state unchanged) — both for top-level
messages and for replies — and a reply is admitted as a follow-up only if
its thread key is in the completed set. -/
theorem c6_active_thread_drop :
    ∀ (cid : String) (ev : SlackEvent) (st : TrackState),
      (threadKeyOf ev ∈ st.activeThreads →
        (handleSlackEvent cid ev st).1 = Decision.dropped ∧
        (handleSlackEvent cid ev st).2 = st) ∧
      (∀ job : IssueJob,
        (handleSlackEvent cid ev st).1 = Decision.enqueued job → isThreadReply ev = true →
        threadKeyOf ev ∈ st.completedThreads ∧ job.isFollowUp = true) := by
  intro cid ev st
  rcases handleSlackEvent_cases cid ev st with hd | ⟨hp, hna, hcm, hq⟩
  · refine ⟨fun _ => ⟨by rw [hd], by rw [hd]⟩, fun job henq hreply => ?_⟩
    rw [hd] at henq
    exact absurd henq (by simp)
  · refine ⟨fun hmem => absurd hmem hna, fun job henq hreply => ?_⟩
    rw [hq] at henq
    have hj : mkIssueJob ev st = job := Decision.enqueued.inj henq
    refine ⟨hcm hreply, ?_⟩
    rw [← hj]
    simp [mkIssueJob, hreply]

/-- Witness for C6: a concrete top-level message for an active thread is
dropped and leaves the state unchanged. -/
theorem c6_active_thread_drop_witness :
    (handleSlackEvent "C1" c6Event c6State).1 = Decision.dropped ∧
    (handleSlackEvent "C1" c6Event c6State).2 = c6State :=
  (c6_active_thread_drop "C1" c6Event c6State).1 (by decide)

/-- Claim C2, counterexample: after admitting a top-level report for
thread `100.1`, completing it, and admitting a follow-up reply in the same
thread, the key `100.1` is in `activeThreads` and in `completedThreads`
simultaneously — the claimed disjointness invariant fails on a reachable
state. -/
theorem c2_disjointness_counterexample :
    ReachableTrack "C1" c2State ∧
    "100.1" ∈ c2State.activeThreads ∧ "100.1" ∈ c2State.completedThreads := by
  refine ⟨?_, by decide, by decide⟩
  exact ReachableTrack.ingest c2Event2
    (ReachableTrack.complete "100.1" none
      (ReachableTrack.ingest c2Event1 ReachableTrack.init))

/-- For a non-reply event the thread key is the message's own timestamp. -/
theorem threadKey_eq_ts_of_not_reply (ev : SlackEvent) (h : isThreadReply ev = false) :
    threadKeyOf ev = ev.ts := by
  unfold isThreadReply at h
  unfold threadKeyOf
  cases hts : ev.threadTs with
  | none => rfl
  | some t =>
    rw [hts] at h
    dsimp only at h
    simp only [Option.getD_some]
    by_cases he : t = ev.ts
    · exact he
    · rw [if_neg he] at h
      exact absurd h (by simp)

/-- The invariant holds in every state of the restricted system. -/
theorem trackInv_of_reachableTopLevel {cid : String} {s : TrackState}
    (h : ReachableTopLevel cid s) : TrackInv s := by
  induction h with
  | init =>
    refine ⟨?_, ?_, ?_⟩ <;> simp [initialTrackState]
  | ingest ev hr hs ih =>
    rename_i s'
    rcases handleSlackEvent_cases cid ev s' with hd | ⟨hp, hna, _, hq⟩
    · rw [hd]
      exact ih
    · obtain ⟨ihd, iha, ihc⟩ := ih
      have hkey : threadKeyOf ev = ev.ts := threadKey_eq_ts_of_not_reply ev hr
      rw [hq]
      refine ⟨?_, ?_, ?_⟩
      · intro k hk
        obtain ⟨hka, hkc⟩ := hk
        simp only [Finset.mem_insert] at hka
        rcases hka with rfl | hka
        · exact hp (hkey ▸ ihc _ hkc)
        · exact ihd k ⟨hka, hkc⟩
      · intro k hk
        simp only [Finset.mem_insert] at hk ⊢
        rcases hk with rfl | hk
        · exact Or.inl hkey
        · exact Or.inr (iha k hk)
      · intro k hk
        simp only [Finset.mem_insert]
        exact Or.inr (ihc k hk)
  | complete k ctx hmem hs ih =>
    obtain ⟨ihd, iha, ihc⟩ := ih
    refine ⟨?_, ?_, ?_⟩
    · intro k' hk
      obtain ⟨hka, hkc⟩ := hk
      simp only [markThreadCompleted, Finset.mem_erase] at hka
      simp only [markThreadCompleted, Finset.mem_insert] at hkc
      rcases hkc with rfl | hkc
      · exact hka.1 rfl
      · exact ihd k' ⟨hka.2, hkc⟩
    · intro k' hk
      simp only [markThreadCompleted, Finset.mem_erase] at hk
      exact iha k' hk.2
    · intro k' hk
      simp only [markThreadCompleted, Finset.mem_insert] at hk
      rcases hk with rfl | hk
      · exact iha _ hmem
      · exact ihc _ hk
  | clear k hmem hs ih =>
    obtain ⟨ihd, iha, ihc⟩ := ih
    refine ⟨?_, ?_, ?_⟩
    · intro k' hk
      obtain ⟨hka, hkc⟩ := hk
      simp only [clearActiveThread, Finset.mem_erase] at hka
      exact ihd k' ⟨hka.2, hkc⟩
    · intro k' hk
      simp only [clearActiveThread, Finset.mem_erase] at hk
      exact iha k' hk.2
    · intro k' hk
      exact ihc k' hk

/-- Claim C2, amended: a thread identifier is in at most one of the two
tracking sets in every state reachable by top-level admissions and by
`markThreadCompleted` / `clearActiveThread` calls on active threads;
admitting a follow-up reply for a completed thread, however, re-adds the
key to the active set while leaving it in the completed set, so the key is
then in both sets until the follow-up job finishes. -/
theorem c2_disjoint_topLevel_amended :
    ∀ (cid : String) (s : TrackState), ReachableTopLevel cid s →
      ∀ k : String, ¬(k ∈ s.activeThreads ∧ k ∈ s.completedThreads) :=
  fun _ _ h k => (trackInv_of_reachableTopLevel h).1 k

/-- Witness for the amended C2 invariant at the initial state. -/
theorem c2_disjoint_topLevel_amended_witness :
    ¬("t1" ∈ initialTrackState.activeThreads ∧ "t1" ∈ initialTrackState.completedThreads) :=
  c2_disjoint_topLevel_amended "C1" initialTrackState ReachableTopLevel.init "t1"

/-- Unfolding of the queue loop on an empty queue. -/
theorem runQueue_nil (h : IssueJob → JobResult) : runQueue h [] = [] := by
  simp [runQueue]

/-- Unfolding of the queue loop when the handler fails on the head job. -/
theorem runQueue_cons_fail (h : IssueJob → JobResult) (j : IssueJob) (rest : List IssueJob)
    (hf : (h j).status ≠ JStatus.completed) :
    runQueue h (j :: rest) =
      if j.retryCount < maxRetries then
        j :: runQueue h (rest ++ [{ j with retryCount := j.retryCount + 1 }])
      else j :: runQueue h rest := by
  rw [runQueue]
  rw [if_neg hf]

/-- Claim C5: a job whose handler always reports failure is attempted
exactly `maxRetries + 1 = 3` times: after each failed attempt with
`retryCount < maxRetries` the counter is incremented and the job is
re-appended to the tail; after the attempt with `retryCount = maxRetries`
the job is dropped and never attempted again. -/
theorem c5_queue_retry_exhaustion :
    ∀ (h : IssueJob → JobResult) (j : IssueJob),
      (∀ x, (h x).status ≠ JStatus.completed) → j.retryCount = 0 →
      maxRetries = 2 ∧
      runQueue h [j] = [j, { j with retryCount := 1 }, { j with retryCount := 2 }] ∧
      (runQueue h [j]).length = maxRetries + 1 := by
  intro h j hfail hrc
  have step1 : runQueue h [j] = j :: runQueue h [{ j with retryCount := 1 }] := by
    rw [runQueue_cons_fail h j [] (hfail j), if_pos (by rw [hrc]; simp [maxRetries])]
    rw [hrc]
    rfl
  have step2 : runQueue h [{ j with retryCount := 1 }]
      = { j with retryCount := 1 } :: runQueue h [{ j with retryCount := 2 }] := by
    rw [runQueue_cons_fail h _ [] (hfail _), if_pos (by simp [maxRetries])]
    rfl
  have step3 : runQueue h [{ j with retryCount := 2 }] = [{ j with retryCount := 2 }] := by
    rw [runQueue_cons_fail h _ [] (hfail _), if_neg (by simp [maxRetries])]
    rw [runQueue_nil]
  refine ⟨rfl, ?_, ?_⟩
  · rw [step1, step2, step3]
  · rw [step1, step2, step3]
    rfl

/-- Witness for C5: the always-failing handler on a fresh job produces
exactly three attempts. -/
theorem c5_queue_retry_exhaustion_witness :
    runQueue c5FailHandler [c5Job]
      = [c5Job, { c5Job with retryCount := 1 }, { c5Job with retryCount := 2 }] :=
  (c5_queue_retry_exhaustion c5FailHandler c5Job
    (fun _ hx => JStatus.noConfusion hx) rfl).2.1

set_option maxHeartbeats 2000000 in
/-- Every `failed` return of the pipeline goes through `clearActiveThread`
on the job's thread key. -/
theorem processIssue_failed_clears (job : IssueJob) (env : PipelineEnv) (st : TrackState) :
    (processIssue job env st).1.status = JStatus.failed →
    (processIssue job env st).2.1 = clearActiveThread job.threadTs st := by
  dsimp only [processIssue]
  repeat' split
  all_goals intro hst
  all_goals first
    | rfl
    | exact absurd hst (by simp)

/-- Claim C1, counterexample: with the agent, branch creation, commit and
push all succeeding and PR creation failing, `processIssue` returns status
`completed` (not `failed`) and leaves the thread key in the active set —
the claimed failure handling does not hold at the PR-creation stage. -/
theorem c1_pr_stage_counterexample :
    (processIssue c1Job c1Env c1State).1.status = JStatus.completed ∧
    ¬((processIssue c1Job c1Env c1State).1.status = JStatus.failed) ∧
    (processIssue c1Job c1Env c1State).1.error = some "GitHub API error" ∧
    CollabCall.pushBranch ∈ (processIssue c1Job c1Env c1State).2.2 ∧
    CollabCall.createPullRequest ∈ (processIssue c1Job c1Env c1State).2.2 ∧
    "400.1" ∈ (processIssue c1Job c1Env c1State).2.1.activeThreads := by
  refine ⟨by decide, by decide, by decide, by decide, by decide, by decide⟩

/-- Claim C1, amended: for the CLI-check, agent, branch-creation, commit
and push stages a non-success collaborator result makes `processIssue`
return a `JobResult` with status `failed`, with the returned tracking
state equal to `clearActiveThread` on the job's thread key, so the key is
not in the active set; at the PR-creation stage, however, a non-success
result after successful commit and push yields status `completed` with
the error recorded, and the thread-tracking state — including the active
claim — is left untouched. -/
theorem c1_failure_handling_amended :
    (∀ (job : IssueJob) (env : PipelineEnv) (st : TrackState),
      env.useCliMode = true → env.cliInstalled = false →
      (processIssue job env st).1.status = JStatus.failed ∧
      (processIssue job env st).2.1 = clearActiveThread job.threadTs st ∧
      job.threadTs ∉ (processIssue job env st).2.1.activeThreads) ∧
    (∀ (job : IssueJob) (env : PipelineEnv) (st : TrackState),
      (env.useCliMode = true → env.cliInstalled = true) →
      env.agentSuccess = false →
      (processIssue job env st).1.status = JStatus.failed ∧
      (processIssue job env st).2.1 = clearActiveThread job.threadTs st ∧
      job.threadTs ∉ (processIssue job env st).2.1.activeThreads) ∧
    (∀ (job : IssueJob) (env : PipelineEnv) (st : TrackState),
      (env.useCliMode = true → env.cliInstalled = true) →
      env.agentSuccess = true →
      env.gitModified ++ env.gitCreated ++ env.gitNotAdded ≠ [] →
      (job.isFollowUp = false ∨ job.threadContext = none ∨ env.checkoutSuccess = false) →
      env.branchResult = none →
      (processIssue job env st).1.status = JStatus.failed ∧
      (processIssue job env st).2.1 = clearActiveThread job.threadTs st ∧
      job.threadTs ∉ (processIssue job env st).2.1.activeThreads) ∧
    (∀ (job : IssueJob) (env : PipelineEnv) (st : TrackState),
      (env.useCliMode = true → env.cliInstalled = true) →
      env.agentSuccess = true →
      env.gitModified ++ env.gitCreated ++ env.gitNotAdded ≠ [] →
      ((job.isFollowUp = true ∧ job.threadContext.isSome = true ∧
          env.checkoutSuccess = true) ∨
        env.branchResult.isSome = true) →
      env.commitSuccess = false →
      (processIssue job env st).1.status = JStatus.failed ∧
      (processIssue job env st).2.1 = clearActiveThread job.threadTs st ∧
      job.threadTs ∉ (processIssue job env st).2.1.activeThreads) ∧
    (∀ (job : IssueJob) (env : PipelineEnv) (st : TrackState),
      (env.useCliMode = true → env.cliInstalled = true) →
      env.agentSuccess = true →
      env.gitModified ++ env.gitCreated ++ env.gitNotAdded ≠ [] →
      ((job.isFollowUp = true ∧ job.threadContext.isSome = true ∧
          env.checkoutSuccess = true) ∨
        env.branchResult.isSome = true) →
      env.commitSuccess = true →
      env.pushSuccess = false →
      (processIssue job env st).1.status = JStatus.failed ∧
      (processIssue job env st).2.1 = clearActiveThread job.threadTs st ∧
      job.threadTs ∉ (processIssue job env st).2.1.activeThreads) ∧
    (∀ (job : IssueJob) (env : PipelineEnv) (st : TrackState),
      job.isFollowUp = false →
      (env.useCliMode = true → env.cliInstalled = true) →
      env.agentSuccess = true →
      env.gitModified ++ env.gitCreated ++ env.gitNotAdded ≠ [] →
      env.branchResult.isSome = true →
      env.commitSuccess = true →
      env.pushSuccess = true →
      env.prResult = none →
      (processIssue job env st).1.status = JStatus.completed ∧
      (processIssue job env st).1.error = env.prError ∧
      (processIssue job env st).2.1 = st ∧
      CollabCall.createPullRequest ∈ (processIssue job env st).2.2) := by
  refine ⟨?_, ?_, ?_, ?_, ?_, ?_⟩
  · intro job env st hmode hinst
    cases hfu : job.isFollowUp <;> cases hctx : job.threadContext <;>
      cases hco : env.checkoutSuccess <;>
      simp [processIssue, hfu, hctx, hco, hmode, hinst, clearActiveThread]
  · intro job env st hcli hagent
    have hcli2 : ¬(env.useCliMode = true ∧ env.cliInstalled = false) :=
      fun hx => absurd (hcli hx.1) (by simp [hx.2])
    cases hfu : job.isFollowUp <;> cases hctx : job.threadContext <;>
      cases hco : env.checkoutSuccess <;>
      simp [processIssue, hfu, hctx, hco, hcli2, hagent, clearActiveThread]
  · intro job env st hcli hagent hfiles hreach hbr
    have hcli2 : ¬(env.useCliMode = true ∧ env.cliInstalled = false) :=
      fun hx => absurd (hcli hx.1) (by simp [hx.2])
    have hfiles2 : ¬(env.gitModified = [] ∧ env.gitCreated = [] ∧ env.gitNotAdded = []) :=
      fun hx => hfiles (by simp [hx.1, hx.2.1, hx.2.2])
    rcases hreach with hfu | hctx | hco
    · cases hctx : job.threadContext <;> cases hco : env.checkoutSuccess <;>
        simp [processIssue, hfu, hctx, hco, hcli2, hagent, hfiles2, hbr, clearActiveThread]
    · cases hfu : job.isFollowUp <;> cases hco : env.checkoutSuccess <;>
        simp [processIssue, hfu, hctx, hco, hcli2, hagent, hfiles2, hbr, clearActiveThread]
    · cases hfu : job.isFollowUp <;> cases hctx : job.threadContext <;>
        simp [processIssue, hfu, hctx, hco, hcli2, hagent, hfiles2, hbr, clearActiveThread]
  · intro job env st hcli hagent hfiles havail hcommit
    have hcli2 : ¬(env.useCliMode = true ∧ env.cliInstalled = false) :=
      fun hx => absurd (hcli hx.1) (by simp [hx.2])
    have hfiles2 : ¬(env.gitModified = [] ∧ env.gitCreated = [] ∧ env.gitNotAdded = []) :=
      fun hx => hfiles (by simp [hx.1, hx.2.1, hx.2.2])
    rcases havail with ⟨hfu, hctxs, hco⟩ | hbrs
    · obtain ⟨c, hctx⟩ := Option.isSome_iff_exists.mp hctxs
      simp [processIssue, hfu, hctx, hco, hcli2, hagent, hfiles2, hcommit, clearActiveThread]
    · obtain ⟨b, hb⟩ := Option.isSome_iff_exists.mp hbrs
      cases hfu : job.isFollowUp <;> cases hctx : job.threadContext <;>
        cases hco : env.checkoutSuccess <;>
        simp [processIssue, hfu, hctx, hco, hcli2, hagent, hfiles2, hb, hcommit,
          clearActiveThread]
  · intro job env st hcli hagent hfiles havail hcommit hpush
    have hcli2 : ¬(env.useCliMode = true ∧ env.cliInstalled = false) :=
      fun hx => absurd (hcli hx.1) (by simp [hx.2])
    have hfiles2 : ¬(env.gitModified = [] ∧ env.gitCreated = [] ∧ env.gitNotAdded = []) :=
      fun hx => hfiles (by simp [hx.1, hx.2.1, hx.2.2])
    rcases havail with ⟨hfu, hctxs, hco⟩ | hbrs
    · obtain ⟨c, hctx⟩ := Option.isSome_iff_exists.mp hctxs
      simp [processIssue, hfu, hctx, hco, hcli2, hagent, hfiles2, hcommit, hpush,
        clearActiveThread]
    · obtain ⟨b, hb⟩ := Option.isSome_iff_exists.mp hbrs
      cases hfu : job.isFollowUp <;> cases hctx : job.threadContext <;>
        cases hco : env.checkoutSuccess <;>
        simp [processIssue, hfu, hctx, hco, hcli2, hagent, hfiles2, hb, hcommit, hpush,
          clearActiveThread]
  · intro job env st hfu hcli hagent hfiles hbr hcommit hpush hpr
    obtain ⟨b, hb⟩ := Option.isSome_iff_exists.mp hbr
    have hcli2 : ¬(env.useCliMode = true ∧ env.cliInstalled = false) :=
      fun hx => absurd (hcli hx.1) (by simp [hx.2])
    have hfiles2 : ¬(env.gitModified = [] ∧ env.gitCreated = [] ∧ env.gitNotAdded = []) :=
      fun hx => hfiles (by simp [hx.1, hx.2.1, hx.2.2])
    simp [processIssue, hfu, hcli2, hagent, hfiles2, hb, hcommit, hpush, hpr]

/-- Witness for the amended C1: the agent-, commit- and push-failure parts
applied to concrete failing runs, and the PR part applied to the concrete
PR-creation failure. -/
theorem c1_failure_handling_amended_witness :
    (processIssue c1Job { c1Env with agentSuccess := false } c1State).1.status
      = JStatus.failed ∧
    (processIssue c1Job { c1Env with commitSuccess := false } c1State).1.status
      = JStatus.failed ∧
    "400.1" ∉
      (processIssue c1Job { c1Env with commitSuccess := false } c1State).2.1.activeThreads ∧
    (processIssue c1Job { c1Env with pushSuccess := false } c1State).1.status
      = JStatus.failed ∧
    (processIssue c1Job c1Env c1State).1.status = JStatus.completed :=
  ⟨(c1_failure_handling_amended.2.1 c1Job { c1Env with agentSuccess := false } c1State
      (by decide) rfl).1,
   (c1_failure_handling_amended.2.2.2.1 c1Job { c1Env with commitSuccess := false } c1State
      (by decide) rfl (by decide) (Or.inr rfl) rfl).1,
   (c1_failure_handling_amended.2.2.2.1 c1Job { c1Env with commitSuccess := false } c1State
      (by decide) rfl (by decide) (Or.inr rfl) rfl).2.2,
   (c1_failure_handling_amended.2.2.2.2.1 c1Job { c1Env with pushSuccess := false } c1State
      (by decide) rfl (by decide) (Or.inr rfl) rfl rfl).1,
   (c1_failure_handling_amended.2.2.2.2.2 c1Job c1Env c1State rfl (by decide) rfl (by decide)
      rfl rfl rfl rfl).1⟩

/-- Claim C9: when the agent reports success but the working tree shows
zero changed files (modified, created and untracked all empty),
`processIssue` returns status `completed` with an empty `filesChanged`
list, and neither branch creation, commit, push nor PR creation is
invoked. -/
theorem c9_noop_completed :
    ∀ (job : IssueJob) (env : PipelineEnv) (st : TrackState),
      (env.useCliMode = true → env.cliInstalled = true) →
      env.agentSuccess = true →
      env.gitModified = [] → env.gitCreated = [] → env.gitNotAdded = [] →
      (processIssue job env st).1.status = JStatus.completed ∧
      (processIssue job env st).1.resultFiles = some [] ∧
      CollabCall.createBranch ∉ (processIssue job env st).2.2 ∧
      CollabCall.commitChanges ∉ (processIssue job env st).2.2 ∧
      CollabCall.pushBranch ∉ (processIssue job env st).2.2 ∧
      CollabCall.createPullRequest ∉ (processIssue job env st).2.2 := by
  intro job env st hcli hagent hm hc hn
  have hcli2 : ¬(env.useCliMode = true ∧ env.cliInstalled = false) :=
    fun hx => absurd (hcli hx.1) (by simp [hx.2])
  cases hfu : job.isFollowUp <;> cases hctx : job.threadContext <;>
    cases hco : env.checkoutSuccess <;>
    simp [processIssue, hfu, hctx, hco, hcli2, hagent, hm, hc, hn]

/-- Witness for C9 at a concrete no-op run. -/
theorem c9_noop_completed_witness :
    (processIssue c9Job c9Env initialTrackState).1.status = JStatus.completed ∧
    (processIssue c9Job c9Env initialTrackState).1.resultFiles = some [] ∧
    CollabCall.createBranch ∉ (processIssue c9Job c9Env initialTrackState).2.2 ∧
    CollabCall.commitChanges ∉ (processIssue c9Job c9Env initialTrackState).2.2 ∧
    CollabCall.pushBranch ∉ (processIssue c9Job c9Env initialTrackState).2.2 ∧
    CollabCall.createPullRequest ∉ (processIssue c9Job c9Env initialTrackState).2.2 :=
  c9_noop_completed c9Job c9Env initialTrackState (by decide) rfl rfl rfl rfl

/-- Membership in `dedupFrom`: an element survives iff it occurs in the
input and was not already seen. -/
theorem mem_dedupFrom (l : List String) (seen : List String) (a : String) :
    a ∈ dedupFrom seen l ↔ (a ∈ l ∧ a ∉ seen) := by
  induction l generalizing seen with
  | nil => simp [dedupFrom]
  | cons x xs ih =>
    by_cases hx : x ∈ seen
    · rw [dedupFrom, if_pos hx, ih, List.mem_cons]
      constructor
      · rintro ⟨h1, h2⟩
        exact ⟨Or.inr h1, h2⟩
      · rintro ⟨h1 | h1, h2⟩
        · exact absurd (h1 ▸ hx) h2
        · exact ⟨h1, h2⟩
    · rw [dedupFrom, if_neg hx]
      simp only [List.mem_cons, ih]
      constructor
      · rintro (rfl | ⟨h1, h2⟩)
        · exact ⟨Or.inl rfl, hx⟩
        · simp only [List.mem_cons, not_or] at h2
          exact ⟨Or.inr h1, h2.2⟩
      · rintro ⟨h1 | h1, h2⟩
        · exact Or.inl h1
        · by_cases hax : a = x
          · exact Or.inl hax
          · refine Or.inr ⟨h1, ?_⟩
            simp only [List.mem_cons, not_or]
            exact ⟨hax, h2⟩

/-- Keep-first deduplication preserves the underlying set. -/
theorem toFinset_dedupKeepFirst (l : List String) :
    (dedupKeepFirst l).toFinset = l.toFinset := by
  ext a
  simp [dedupKeepFirst, mem_dedupFrom]

/-- Claim C8: a follow-up job carrying a `ThreadContext` with branch
`fix/x` and `filesChanged = ["a.ts"]` reuses the branch (`createBranch`
is not invoked, the result's branch is `fix/x`), and the context stored on
completion has a `filesChanged` set equal to the union of `{"a.ts"}` with
the files changed in this run. -/
theorem c8_followup_branch_reuse :
    ∀ (job : IssueJob) (ctx : ThreadContext) (env : PipelineEnv) (st : TrackState),
      job.isFollowUp = true →
      job.threadContext = some ctx →
      ctx.branchName = "fix/x" →
      ctx.filesChanged = ["a.ts"] →
      (env.useCliMode = true → env.cliInstalled = true) →
      env.checkoutSuccess = true →
      env.agentSuccess = true →
      env.gitModified ++ env.gitCreated ++ env.gitNotAdded ≠ [] →
      env.commitSuccess = true →
      env.pushSuccess = true →
      ((ctx.prUrl.isSome ∧ ctx.prNumber.isSome) ∨ env.prResult.isSome) →
      CollabCall.createBranch ∉ (processIssue job env st).2.2 ∧
      (processIssue job env st).1.branchName = some "fix/x" ∧
      ((processIssue job env st).2.1.threadContextMap job.threadTs).map
        ThreadContext.branchName = some "fix/x" ∧
      ((processIssue job env st).2.1.threadContextMap job.threadTs).map
          (fun c => c.filesChanged.toFinset)
        = some (insert "a.ts"
            (env.gitModified ++ env.gitCreated ++ env.gitNotAdded).toFinset) := by
  intro job ctx env st hfu hctx hbn hfc hcli hco hagent hfiles hcommit hpush hpr
  have hcli2 : ¬(env.useCliMode = true ∧ env.cliInstalled = false) :=
    fun hx => absurd (hcli hx.1) (by simp [hx.2])
  have hfiles2 : ¬(env.gitModified = [] ∧ env.gitCreated = [] ∧ env.gitNotAdded = []) :=
    fun hx => hfiles (by simp [hx.1, hx.2.1, hx.2.2])
  rcases hpr with ⟨hpu, hpn⟩ | hprr
  · obtain ⟨u, hu⟩ := Option.isSome_iff_exists.mp hpu
    obtain ⟨n, hn⟩ := Option.isSome_iff_exists.mp hpn
    simp [processIssue, hfu, hctx, hbn, hfc, hcli2, hco, hagent, hfiles2, hcommit, hpush,
      hu, hn, markThreadCompleted, toFinset_dedupKeepFirst]
  · obtain ⟨r, hr⟩ := Option.isSome_iff_exists.mp hprr
    cases hcu : ctx.prUrl <;> cases hcn : ctx.prNumber <;>
      simp [processIssue, hfu, hctx, hbn, hfc, hcli2, hco, hagent, hfiles2, hcommit, hpush,
        hcu, hcn, hr, markThreadCompleted, toFinset_dedupKeepFirst]

/-- Witness for C8 at a concrete follow-up run. -/
theorem c8_followup_branch_reuse_witness :
    CollabCall.createBranch ∉ (processIssue c8Job c8Env initialTrackState).2.2 ∧
    (processIssue c8Job c8Env initialTrackState).1.branchName = some "fix/x" ∧
    ((processIssue c8Job c8Env initialTrackState).2.1.threadContextMap c8Job.threadTs).map
      ThreadContext.branchName = some "fix/x" ∧
    ((processIssue c8Job c8Env initialTrackState).2.1.threadContextMap c8Job.threadTs).map
        (fun c => c.filesChanged.toFinset)
      = some (insert "a.ts"
          (c8Env.gitModified ++ c8Env.gitCreated ++ c8Env.gitNotAdded).toFinset) :=
  c8_followup_branch_reuse c8Job c8Ctx c8Env initialTrackState rfl rfl rfl rfl (by decide)
    rfl rfl (by decide) rfl rfl (Or.inl (by decide))
